import Mathlib

/-!
Shallow embedding of `tdameritrade_api/private/api_wrapper.py`
(class `BaseTDAAPIWrapper`) and proofs about its request construction.

Modelling conventions:
- Python `datetime.datetime` objects are modelled by the `Datetime` structure,
  carrying exactly the data the wrapper reads from them: the calendar fields
  used by `strftime`, the UTC offset in minutes (`none` for naive values,
  which makes `strftime` of the offset directive return the empty string),
  and the value of `timestamp()` in integer microseconds.
- Optional keyword arguments default to Python `None`; an argument is
  modelled as `Option _`, with `none` for an unset/`None` argument.
- Python dicts used as query parameters are insertion-ordered association
  lists `List (String × PyVal)`; each wrapper method only ever assigns
  fresh keys, so successive assignments are appends.
- A raised exception is `Except.error`; operations return the request that
  would be handed to the HTTP session, so `Except.ok r` means the request
  `r` was built and dispatched, and `Except.error e` means the exception
  `e` propagated before any request existed.
- `__get_request(self, path, params)` declares `params` with no default, so
  a call site that omits it raises `TypeError` when the call is made; the
  argument is modelled as `Option Params`, with `none` for an omitted
  argument.
- The clock read `datetime.datetime.utcnow()` performed by
  `__make_order_query` is modelled by an explicit `now` argument supplied
  at each call, so each call of the embedded function corresponds to one
  fresh clock read.
-/

namespace TDA

/-- Values a query-parameter mapping can hold (Python dict values:
strings, ints, booleans, and `None`). -/
inductive PyVal where
  | vstr (s : String)
  | vint (n : Int)
  | vbool (b : Bool)
  | vnone
  deriving DecidableEq

/-- A query-parameter mapping: insertion-ordered key/value pairs. -/
abbrev Params := List (String × PyVal)

/-- Whether the mapping contains the key. -/
def containsKey (ps : Params) (k : String) : Bool :=
  ps.any (fun kv => kv.1 == k)

/-- The value bound to a key, if present. -/
def lookupKey (ps : Params) (k : String) : Option PyVal :=
  (ps.find? (fun kv => kv.1 == k)).map (fun kv => kv.2)

/-- Python exceptions the wrapper can raise while building a request. -/
inductive PyErr where
  | typeError
  | valueError (msg : String)
  deriving DecidableEq

inductive HttpMethod where
  | get
  | post
  | put
  | delete
  deriving DecidableEq

/-- An opaque JSON body (order specifications); the wrapper never inspects it. -/
structure JsonData where
  raw : String
  deriving DecidableEq

/-- The request description handed to the HTTP session. -/
structure Request where
  method : HttpMethod
  url : String
  params : Params
  body : Option JsonData
  deriving DecidableEq

/-- The state set up by `__init__`: `api_key`, and `account_id` (default
`None`). The `session` collaborator is external and not part of request
construction. No method ever assigns these fields after construction. -/
structure Client where
  api_key : String
  account_id : Option String
  deriving DecidableEq

/-- Shallow model of a Python `datetime.datetime`. -/
structure Datetime where
  year : Nat
  month : Nat
  day : Nat
  hour : Nat
  minute : Nat
  second : Nat
  /-- UTC offset in minutes; `none` models a naive datetime. -/
  tzOffsetMinutes : Option Int
  /-- The value `timestamp()` returns, in integer microseconds. -/
  epochMicros : Int
  deriving DecidableEq

/-- Zero-padded two-digit rendering, as `strftime` produces. -/
def pad2 (n : Nat) : String :=
  if n < 10 then "0" ++ toString n else toString n

/-- Zero-padded four-digit rendering of the year, as `strftime(%Y)`. -/
def pad4 (n : Nat) : String :=
  if n < 10 then "000" ++ toString n
  else if n < 100 then "00" ++ toString n
  else if n < 1000 then "0" ++ toString n
  else toString n

/-- Embeds `dt.strftime(%z)`: the empty string for a naive datetime, otherwise
the signed offset rendered as `±HHMM`. -/
def strftimeZ (dt : Datetime) : String :=
  match dt.tzOffsetMinutes with
  | none => ""
  | some o =>
      (if o < 0 then "-" else "+") ++ pad2 (o.natAbs / 60) ++ pad2 (o.natAbs % 60)

/-- Embeds `dt.strftime(%Y-%m-%dT%H:%M:%S)`. -/
def strftimeMain (dt : Datetime) : String :=
  pad4 dt.year ++ "-" ++ pad2 dt.month ++ "-" ++ pad2 dt.day ++ "T" ++
    pad2 dt.hour ++ ":" ++ pad2 dt.minute ++ ":" ++ pad2 dt.second

/-- Python `datetime.datetime.min`: 0001-01-01T00:00:00, naive. The
`epochMicros` field records the nominal epoch value of that instant; the
wrapper never calls `timestamp()` on it. -/
def datetime_min : Datetime :=
  { year := 1, month := 1, day := 1, hour := 0, minute := 0, second := 0,
    tzOffsetMinutes := none, epochMicros := -62135596800000000 }

/-- Embeds `__format_datetime`: `strftime(%z)` result if truthy (non-empty),
else `+0000`, appended to the `%Y-%m-%dT%H:%M:%S` rendering. -/
def format_datetime (dt : Datetime) : String :=
  strftimeMain dt ++ (if strftimeZ dt = "" then "+0000" else strftimeZ dt)

/-- Embeds `__datetime_as_millis`: `int(dt.timestamp() * 1000)` — the timestamp in
seconds times 1000, truncated toward zero. -/
def datetime_as_millis (dt : Datetime) : Int :=
  Int.tdiv dt.epochMicros 1000

def baseUrl : String := "https://api.tdameritrade.com"

/-- Embeds `__get_request(self, path, params)`: `params` has no default value, so
a call that omits it (`none`) raises `TypeError`; otherwise the GET request
is built and dispatched. -/
def get_request (path : String) (params : Option Params) : Except PyErr Request :=
  match params with
  | none => Except.error PyErr.typeError
  | some ps =>
      Except.ok { method := HttpMethod.get, url := baseUrl ++ path,
                  params := ps, body := none }

/-- Embeds `__post_request`. -/
def post_request (path : String) (data : JsonData) : Except PyErr Request :=
  Except.ok { method := HttpMethod.post, url := baseUrl ++ path,
              params := [], body := some data }

/-- Embeds `__put_request`. -/
def put_request (path : String) (data : JsonData) : Except PyErr Request :=
  Except.ok { method := HttpMethod.put, url := baseUrl ++ path,
              params := [], body := some data }

/-- Embeds `__delete_request`. -/
def delete_request (path : String) : Except PyErr Request :=
  Except.ok { method := HttpMethod.delete, url := baseUrl ++ path,
              params := [], body := none }

/-- Embeds `__account_id`: raises `ValueError` when the client was constructed
without an account id. Defined in the source, but no operation calls it. -/
def account_id_of (c : Client) : Except PyErr String :=
  match c.account_id with
  | none => Except.error (PyErr.valueError "client initialized without account ID")
  | some a => Except.ok a

/-- Python truthiness of an optional string argument. -/
def truthyStr : Option String → Bool
  | none => false
  | some s => s != ""

/-- Python truthiness of an optional integer argument. -/
def truthyInt : Option Int → Bool
  | none => false
  | some n => n != 0

/-- Python truthiness of an optional list argument. -/
def truthyList : Option (List String) → Bool
  | none => false
  | some l => !l.isEmpty

/-- Embeds the Python idiom joining a list of strings with comma separators. -/
def joinComma : List String → String
  | [] => ""
  | [s] => s
  | s :: rest => s ++ "," ++ joinComma rest

/-- Embeds `cancel_order`. -/
def cancel_order (_c : Client) (order_id account_id : String) : Except PyErr Request :=
  delete_request ("/v1/accounts/" ++ account_id ++ "/orders/" ++ order_id)

/-- Embeds `get_order`: calls `__get_request(path)` without the required `params`
argument. -/
def get_order (_c : Client) (order_id account_id : String) : Except PyErr Request :=
  get_request ("/v1/accounts/" ++ account_id ++ "/orders/" ++ order_id) none

/-- Embeds `__make_order_query`; `now` is the `datetime.datetime.utcnow()` clock
read performed by this call. -/
def make_order_query (max_results : Option Int)
    (from_entered_datetime to_entered_datetime : Option Datetime)
    (status : Option String) (statuses : Option (List String))
    (now : Datetime) : Except PyErr Params :=
  let from_dt := from_entered_datetime.getD datetime_min
  let to_dt := to_entered_datetime.getD now
  let params : Params :=
    [("fromEnteredTime", PyVal.vstr (format_datetime from_dt)),
     ("toEnteredTime", PyVal.vstr (format_datetime to_dt))]
  let params :=
    if truthyInt max_results then
      params ++ [("maxResults", PyVal.vint (max_results.getD 0))]
    else params
  if status.isSome && statuses.isSome then
    Except.error (PyErr.valueError "at most one of status or statuses may be set")
  else
    let params :=
      if truthyStr status then
        params ++ [("status", PyVal.vstr (status.getD ""))]
      else params
    let params :=
      if truthyList statuses then
        params ++ [("status", PyVal.vstr (joinComma (statuses.getD [])))]
      else params
    Except.ok params

/-- Embeds `get_orders_by_path`. -/
def get_orders_by_path (_c : Client) (account_id : String)
    (max_results : Option Int)
    (from_entered_datetime to_entered_datetime : Option Datetime)
    (status : Option String) (statuses : Option (List String))
    (now : Datetime) : Except PyErr Request :=
  match make_order_query max_results from_entered_datetime to_entered_datetime
      status statuses now with
  | Except.error e => Except.error e
  | Except.ok q => get_request ("/v1/accounts/" ++ account_id ++ "/orders") (some q)

/-- Embeds `get_orders_by_query`. -/
def get_orders_by_query (_c : Client)
    (max_results : Option Int)
    (from_entered_datetime to_entered_datetime : Option Datetime)
    (status : Option String) (statuses : Option (List String))
    (now : Datetime) : Except PyErr Request :=
  match make_order_query max_results from_entered_datetime to_entered_datetime
      status statuses now with
  | Except.error e => Except.error e
  | Except.ok q => get_request "/v1/orders" (some q)

/-- Embeds `place_order`. -/
def place_order (_c : Client) (account_id : String) (order_spec : JsonData) :
    Except PyErr Request :=
  post_request ("/v1/accounts/" ++ account_id ++ "/orders") order_spec

/-- Embeds `replace_order`. -/
def replace_order (_c : Client) (account_id order_id : String)
    (order_spec : JsonData) : Except PyErr Request :=
  post_request ("/v1/accounts/" ++ account_id ++ "/orders/" ++ order_id) order_spec

/-- Embeds `create_saved_order`. -/
def create_saved_order (_c : Client) (account_id : String) (order_spec : JsonData) :
    Except PyErr Request :=
  post_request ("/v1/accounts/" ++ account_id ++ "/savedorders") order_spec

/-- Embeds `delete_saved_order`. -/
def delete_saved_order (_c : Client) (account_id order_id : String) :
    Except PyErr Request :=
  delete_request ("/v1/accounts/" ++ account_id ++ "/savedorders/" ++ order_id)

/-- Embeds `get_saved_order`. -/
def get_saved_order (_c : Client) (account_id order_id : String) :
    Except PyErr Request :=
  get_request ("/v1/accounts/" ++ account_id ++ "/savedorders/" ++ order_id)
    (some [])

/-- Embeds `get_saved_orders_by_path`. -/
def get_saved_orders_by_path (_c : Client) (account_id : String) :
    Except PyErr Request :=
  get_request ("/v1/accounts/" ++ account_id ++ "/savedorders") (some [])

/-- Embeds `replace_saved_order`. -/
def replace_saved_order (_c : Client) (account_id order_id : String)
    (order_spec : JsonData) : Except PyErr Request :=
  put_request ("/v1/accounts/" ++ account_id ++ "/savedorders/" ++ order_id)
    order_spec

/-- Embeds `get_account`. -/
def get_account (_c : Client) (account_id : String)
    (fields : Option (List String)) : Except PyErr Request :=
  let params : Params :=
    if truthyList fields then [("fields", PyVal.vstr (joinComma (fields.getD [])))]
    else []
  get_request ("/v1/accounts/" ++ account_id) (some params)

/-- Embeds `get_accounts`. -/
def get_accounts (_c : Client) (fields : Option (List String)) :
    Except PyErr Request :=
  let params : Params :=
    if truthyList fields then [("fields", PyVal.vstr (joinComma (fields.getD [])))]
    else []
  get_request "/v1/accounts" (some params)

/-- Embeds `search_instruments`. -/
def search_instruments (c : Client) (symbol projection : String) :
    Except PyErr Request :=
  get_request "/v1/instruments"
    (some [("apikey", PyVal.vstr c.api_key),
           ("symbol", PyVal.vstr symbol),
           ("projection", PyVal.vstr projection)])

/-- The universe of values a caller may pass as the `cusip` argument:
either a Python `str` or a non-string (numeric) value, which is what the
`isinstance(cusip, str)` check discriminates. -/
inductive CusipArg where
  | str (s : String)
  | num (n : Int)
  deriving DecidableEq

/-- Embeds `get_instrument`. -/
def get_instrument (c : Client) (cusip : CusipArg) : Except PyErr Request :=
  match cusip with
  | CusipArg.num _ =>
      Except.error (PyErr.valueError
        "CUSIPs must be passed as strings to preserve leading zeroes")
  | CusipArg.str s =>
      get_request ("/v1/instruments/" ++ s)
        (some [("apikey", PyVal.vstr c.api_key)])

/-- Embeds `get_hours_for_multiple_markets` (the `print(params)` console output is
not part of request construction). -/
def get_hours_for_multiple_markets (c : Client) (markets : List String)
    (date : Datetime) : Except PyErr Request :=
  get_request "/v1/marketdata/hours"
    (some [("apikey", PyVal.vstr c.api_key),
           ("markets", PyVal.vstr (joinComma markets)),
           ("date", PyVal.vstr (format_datetime date))])

/-- Embeds `get_hours_for_a_single_market`. -/
def get_hours_for_a_single_market (c : Client) (market : String)
    (date : Datetime) : Except PyErr Request :=
  get_request ("/v1/marketdata/" ++ market ++ "/hours")
    (some [("apikey", PyVal.vstr c.api_key),
           ("date", PyVal.vstr (format_datetime date))])

/-- Embeds `get_movers`. -/
def get_movers (c : Client) (index direction change : String) :
    Except PyErr Request :=
  get_request ("/v1/marketdata/" ++ index ++ "/movers")
    (some [("apikey", PyVal.vstr c.api_key),
           ("direction", PyVal.vstr direction),
           ("change", PyVal.vstr change)])

/-- Embeds `get_option_chain`. The last conditional reproduces the source exactly:
it tests `days_to_expiration is None` (not `is not None`), so the
`daysToExpiration` key is added — bound to `None` — precisely when the
argument is absent, and omitted when the caller supplies a value. -/
def get_option_chain (c : Client) (symbol : String)
    (contract_type : String) (strike_count : Option Int) (include_quotes : Bool)
    (strategy : Option String) (interval : Option Int) (strike : Option Int)
    (strike_range : String) (strike_from_date strike_to_date : Option Datetime)
    (volatility underlying_price interest_rate : Option Int)
    (days_to_expiration : Option Int) (exp_month option_type : String) :
    Except PyErr Request :=
  let params : Params :=
    [("apikey", PyVal.vstr c.api_key),
     ("symbol", PyVal.vstr symbol),
     ("includeQuotes", PyVal.vbool include_quotes),
     ("contractType", PyVal.vstr contract_type),
     ("range", PyVal.vstr strike_range),
     ("expMonth", PyVal.vstr exp_month),
     ("optionType", PyVal.vstr option_type)]
  let params := match strike_count with
    | some v => params ++ [("strikeCount", PyVal.vint v)]
    | none => params
  let params := match strategy with
    | some v => params ++ [("strategy", PyVal.vstr v)]
    | none => params
  let params := match interval with
    | some v => params ++ [("interval", PyVal.vint v)]
    | none => params
  let params := match strike with
    | some v => params ++ [("strike", PyVal.vint v)]
    | none => params
  let params := match strike_from_date with
    | some v => params ++ [("fromDate", PyVal.vstr (format_datetime v))]
    | none => params
  let params := match strike_to_date with
    | some v => params ++ [("toDate", PyVal.vstr (format_datetime v))]
    | none => params
  let params := match volatility with
    | some v => params ++ [("volatility", PyVal.vint v)]
    | none => params
  let params := match underlying_price with
    | some v => params ++ [("underlyingPrice", PyVal.vint v)]
    | none => params
  let params := match interest_rate with
    | some v => params ++ [("interestRate", PyVal.vint v)]
    | none => params
  let params := match days_to_expiration with
    | none => params ++ [("daysToExpiration", PyVal.vnone)]
    | some _ => params
  get_request "/v1/marketdata/chains" (some params)

/-- Embeds `get_price_history`. -/
def get_price_history (c : Client) (symbol : String) (period_type : String)
    (num_periods : Option Int) (frequency_type : Option String)
    (frequency : Int) (start_date end_date : Option Datetime)
    (need_extended_hours_data : Bool) : Except PyErr Request :=
  let params : Params :=
    [("apikey", PyVal.vstr c.api_key),
     ("symbol", PyVal.vstr symbol),
     ("periodType", PyVal.vstr period_type),
     ("frequency", PyVal.vint frequency),
     ("needExtendedHoursData", PyVal.vbool need_extended_hours_data)]
  let params := match num_periods with
    | some v => params ++ [("period", PyVal.vint v)]
    | none => params
  let params := match frequency_type with
    | some v => params ++ [("frequencyType", PyVal.vstr v)]
    | none => params
  let params := match start_date with
    | some v => params ++ [("startDate", PyVal.vint (datetime_as_millis v))]
    | none => params
  let params := match end_date with
    | some v => params ++ [("endDate", PyVal.vint (datetime_as_millis v))]
    | none => params
  get_request ("/v1/marketdata/" ++ symbol ++ "/pricehistory") (some params)

/-- Embeds `get_quote`. -/
def get_quote (c : Client) (symbol : String) : Except PyErr Request :=
  get_request ("/v1/marketdata/" ++ symbol ++ "/quotes")
    (some [("apikey", PyVal.vstr c.api_key)])

/-- Embeds `get_quotes`. -/
def get_quotes (c : Client) (symbols : List String) : Except PyErr Request :=
  get_request "/v1/marketdata/quotes"
    (some [("apikey", PyVal.vstr c.api_key),
           ("symbol", PyVal.vstr (joinComma symbols))])

/-- The query parameters of a built request, or `[]` when the call raised. -/
def paramsOf : Except PyErr Request → Params
  | Except.ok r => r.params
  | Except.error _ => []

/-- When the mutual-exclusivity check passes, `__make_order_query` returns a
mapping whose first two entries are the formatted time bounds, followed by
whatever optional entries the truthy arguments contribute. -/
theorem make_order_query_ok_shape (mr : Option Int)
    (f t : Option Datetime) (st : Option String)
    (sts : Option (List String)) (now : Datetime)
    (h : st = none ∨ sts = none) :
    ∃ rest, make_order_query mr f t st sts now
      = Except.ok (("fromEnteredTime",
            PyVal.vstr (format_datetime (f.getD datetime_min)))
          :: ("toEnteredTime", PyVal.vstr (format_datetime (t.getD now)))
          :: rest) := by
  have hex : (st.isSome && sts.isSome) = false := by
    rcases h with h | h <;> subst h <;> simp
  cases hmr : truthyInt mr <;> cases hst : truthyStr st <;>
    cases hsts : truthyList sts <;>
      simp [make_order_query, hmr, hst, hsts, hex]

/-- Propagation through `get_orders_by_path` when the query builds. -/
theorem get_orders_by_path_eq (c : Client) (acct : String) (mr : Option Int)
    (f t : Option Datetime) (st : Option String) (sts : Option (List String))
    (now : Datetime) (q : Params)
    (hm : make_order_query mr f t st sts now = Except.ok q) :
    get_orders_by_path c acct mr f t st sts now
      = get_request ("/v1/accounts/" ++ acct ++ "/orders") (some q) := by
  unfold get_orders_by_path
  rw [hm]

/-- Propagation through `get_orders_by_query` when the query builds. -/
theorem get_orders_by_query_eq (c : Client) (mr : Option Int)
    (f t : Option Datetime) (st : Option String) (sts : Option (List String))
    (now : Datetime) (q : Params)
    (hm : make_order_query mr f t st sts now = Except.ok q) :
    get_orders_by_query c mr f t st sts now
      = get_request "/v1/orders" (some q) := by
  unfold get_orders_by_query
  rw [hm]

/-- Claim C1: the claim states that every optional parameter left unset is
absent from the query mapping and that no key is ever bound to an empty or
null value. In the source, `get_option_chain` tests `days_to_expiration is
None` instead of `is not None`, so a call that leaves `days_to_expiration`
unset produces a query in which `daysToExpiration` is present and bound to
`None` — the code contradicts the stated inclusion policy (which the
design notes shipped with the repository identify as the intent). This theorem
evaluates the code at the failing input. -/
theorem C1_unset_days_to_expiration_key_present :
    lookupKey (paramsOf (get_option_chain ⟨"KEY", none⟩ "AAPL" "ALL" none false
        none none none "ALL" none none none none none none "ALL" "ALL"))
      "daysToExpiration" = some PyVal.vnone := by rfl

/-- Claim C2 (counterexample): a client constructed with no account
identifier, invoking the account-scoped operation `get_orders_by_path`,
does not raise: the request is built and handed to the session, refuting
the claim that such a call raises an invalid-state error before any
request is built. -/
theorem C2_no_account_id_counterexample :
    get_orders_by_path ⟨"KEY", none⟩ "ACCT" none none none none none
        ⟨2023, 1, 2, 3, 4, 5, none, 1672628645000000⟩
      = Except.ok ⟨HttpMethod.get,
          "https://api.tdameritrade.com/v1/accounts/ACCT/orders",
          [("fromEnteredTime", PyVal.vstr "0001-01-01T00:00:00+0000"),
           ("toEnteredTime", PyVal.vstr "2023-01-02T03:04:05+0000")],
          none⟩ := by rfl

/-- Claim C2 (amended): the private account-id helper of the client raises an
invalid-state `ValueError` when the stored account identifier is absent,
but no operation invokes it: every account-scoped operation receives the
account identifier as an explicit argument, its result is independent of
the stored identifier, and representative calls on an id-less client build
their requests without raising. -/
theorem C2_account_operations_ignore_stored_id (k acct oid : String)
    (aid : Option String) (ospec : JsonData) (mr : Option Int)
    (f t : Option Datetime) (st : Option String) (sts : Option (List String))
    (now : Datetime) (fields : Option (List String)) :
    account_id_of ⟨k, none⟩
      = Except.error (PyErr.valueError "client initialized without account ID")
    ∧ get_orders_by_path ⟨k, aid⟩ acct mr f t st sts now
        = get_orders_by_path ⟨k, none⟩ acct mr f t st sts now
    ∧ cancel_order ⟨k, aid⟩ oid acct = cancel_order ⟨k, none⟩ oid acct
    ∧ get_order ⟨k, aid⟩ oid acct = get_order ⟨k, none⟩ oid acct
    ∧ place_order ⟨k, aid⟩ acct ospec = place_order ⟨k, none⟩ acct ospec
    ∧ replace_order ⟨k, aid⟩ acct oid ospec
        = replace_order ⟨k, none⟩ acct oid ospec
    ∧ create_saved_order ⟨k, aid⟩ acct ospec
        = create_saved_order ⟨k, none⟩ acct ospec
    ∧ delete_saved_order ⟨k, aid⟩ acct oid
        = delete_saved_order ⟨k, none⟩ acct oid
    ∧ get_saved_order ⟨k, aid⟩ acct oid = get_saved_order ⟨k, none⟩ acct oid
    ∧ get_saved_orders_by_path ⟨k, aid⟩ acct
        = get_saved_orders_by_path ⟨k, none⟩ acct
    ∧ replace_saved_order ⟨k, aid⟩ acct oid ospec
        = replace_saved_order ⟨k, none⟩ acct oid ospec
    ∧ get_account ⟨k, aid⟩ acct fields = get_account ⟨k, none⟩ acct fields
    ∧ (∃ r, cancel_order ⟨k, none⟩ oid acct = Except.ok r)
    ∧ (∃ r, get_orders_by_path ⟨k, none⟩ acct none none none none none now
          = Except.ok r) :=
  ⟨rfl, rfl, rfl, rfl, rfl, rfl, rfl, rfl, rfl, rfl, rfl, rfl,
    ⟨_, rfl⟩, ⟨_, rfl⟩⟩

/-- Claim C6: `get_instrument` raises `ValueError` for a non-string CUSIP
before building any request; for a string CUSIP it builds a GET request on
`/v1/instruments/<cusip>` (leading zeroes preserved, as in `"00123"`) whose
query mapping holds exactly the api key of the client under `apikey`. -/
theorem C6_get_instrument_cusip (c : Client) (n : Int) (s : String) :
    get_instrument c (CusipArg.num n)
      = Except.error (PyErr.valueError
          "CUSIPs must be passed as strings to preserve leading zeroes")
    ∧ get_instrument c (CusipArg.str s)
      = Except.ok ⟨HttpMethod.get, baseUrl ++ ("/v1/instruments/" ++ s),
          [("apikey", PyVal.vstr c.api_key)], none⟩
    ∧ get_instrument ⟨"KEY", none⟩ (CusipArg.str "00123")
      = Except.ok ⟨HttpMethod.get,
          "https://api.tdameritrade.com/v1/instruments/00123",
          [("apikey", PyVal.vstr "KEY")], none⟩ :=
  ⟨rfl, rfl, rfl⟩

/-- Claim C7: list-valued parameters are serialized as one comma-joined
string in caller order: the join of `[a, b, d]` is `a ++ "," ++ b ++ ","
++ d`; `get_quotes` joins the symbol list (concretely,
`get_quotes(["AAPL","MSFT"])` gives path `/v1/marketdata/quotes` and query
`{apikey, symbol: "AAPL,MSFT"}`); `get_hours_for_multiple_markets` joins
the market list; `__make_order_query` joins a supplied status list; and
`get_account` joins a supplied field list. -/
theorem C7_comma_joined_lists (c : Client) (a b d acct x : String)
    (syms markets : List String) (xs : List String) (date now : Datetime) :
    joinComma [a, b, d] = a ++ "," ++ b ++ "," ++ d
    ∧ get_quotes c syms = Except.ok ⟨HttpMethod.get,
        baseUrl ++ "/v1/marketdata/quotes",
        [("apikey", PyVal.vstr c.api_key),
         ("symbol", PyVal.vstr (joinComma syms))], none⟩
    ∧ get_quotes ⟨"KEY", none⟩ ["AAPL", "MSFT"]
      = Except.ok ⟨HttpMethod.get,
          "https://api.tdameritrade.com/v1/marketdata/quotes",
          [("apikey", PyVal.vstr "KEY"),
           ("symbol", PyVal.vstr "AAPL,MSFT")], none⟩
    ∧ get_hours_for_multiple_markets c markets date
      = Except.ok ⟨HttpMethod.get, baseUrl ++ "/v1/marketdata/hours",
          [("apikey", PyVal.vstr c.api_key),
           ("markets", PyVal.vstr (joinComma markets)),
           ("date", PyVal.vstr (format_datetime date))], none⟩
    ∧ make_order_query none none none none (some (x :: xs)) now
      = Except.ok
          [("fromEnteredTime", PyVal.vstr (format_datetime datetime_min)),
           ("toEnteredTime", PyVal.vstr (format_datetime now)),
           ("status", PyVal.vstr (joinComma (x :: xs)))]
    ∧ get_account c acct (some (x :: xs))
      = Except.ok ⟨HttpMethod.get, baseUrl ++ ("/v1/accounts/" ++ acct),
          [("fields", PyVal.vstr (joinComma (x :: xs)))], none⟩ := by
  refine ⟨?_, rfl, rfl, rfl, rfl, rfl⟩
  simp [joinComma, String.append_assoc]

/-- Claim C9: `get_order` calls the internal GET helper without its
required query-parameter argument, so every call raises (`TypeError`) and
no request is ever built or dispatched, while the analogous single-item
lookups `cancel_order` and `get_saved_order` complete request
construction. -/
theorem C9_get_order_always_raises (c : Client) (order_id account_id : String) :
    get_order c order_id account_id = Except.error PyErr.typeError
    ∧ cancel_order c order_id account_id
      = Except.ok ⟨HttpMethod.delete,
          baseUrl ++ ("/v1/accounts/" ++ account_id ++ "/orders/" ++ order_id),
          [], none⟩
    ∧ get_saved_order c account_id order_id
      = Except.ok ⟨HttpMethod.get,
          baseUrl ++ ("/v1/accounts/" ++ account_id ++ "/savedorders/"
            ++ order_id),
          [], none⟩ :=
  ⟨rfl, rfl, rfl⟩

/-- Claim C3: for both order queries, supplying both the single-status and
the multi-status arguments raises `ValueError` and no request is built or
dispatched; when at most one of the two is supplied, no error is raised
and the request is built. -/
theorem C3_status_exclusivity (c : Client) (acct : String) (mr : Option Int)
    (f t : Option Datetime) (now : Datetime) :
    (∀ (st : String) (sts : List String),
      get_orders_by_path c acct mr f t (some st) (some sts) now
        = Except.error
            (PyErr.valueError "at most one of status or statuses may be set")
      ∧ get_orders_by_query c mr f t (some st) (some sts) now
        = Except.error
            (PyErr.valueError "at most one of status or statuses may be set"))
    ∧ (∀ (st : Option String) (sts : Option (List String)),
      st = none ∨ sts = none →
      (∃ r, get_orders_by_path c acct mr f t st sts now = Except.ok r)
      ∧ (∃ r, get_orders_by_query c mr f t st sts now = Except.ok r)) := by
  constructor
  · intro st sts
    exact ⟨rfl, rfl⟩
  · intro st sts h
    obtain ⟨rest, hm⟩ := make_order_query_ok_shape mr f t st sts now h
    exact ⟨⟨_, (get_orders_by_path_eq c acct mr f t st sts now _ hm).trans rfl⟩,
           ⟨_, (get_orders_by_query_eq c mr f t st sts now _ hm).trans rfl⟩⟩

/-- Claim C3 witness: the exclusivity error at a concrete both-set call,
and a concrete single-filter call that builds its request. -/
theorem C3_status_exclusivity_witness :
    (get_orders_by_path ⟨"KEY", none⟩ "ACCT" none none none (some "FILLED")
        (some ["FILLED", "QUEUED"]) ⟨2023, 1, 2, 3, 4, 5, none, 0⟩
      = Except.error
          (PyErr.valueError "at most one of status or statuses may be set"))
    ∧ (∃ r, get_orders_by_path ⟨"KEY", none⟩ "ACCT" none none none
        (some "FILLED") none ⟨2023, 1, 2, 3, 4, 5, none, 0⟩ = Except.ok r) :=
  ⟨((C3_status_exclusivity ⟨"KEY", none⟩ "ACCT" none none none
      ⟨2023, 1, 2, 3, 4, 5, none, 0⟩).1 "FILLED" ["FILLED", "QUEUED"]).1,
   ((C3_status_exclusivity ⟨"KEY", none⟩ "ACCT" none none none
      ⟨2023, 1, 2, 3, 4, 5, none, 0⟩).2 (some "FILLED") none (Or.inr rfl)).1⟩

/-- Claim C4: `__format_datetime` produces the `%Y-%m-%dT%H:%M:%S`
rendering followed by an offset: `+0000` when the datetime is naive, and
the `+HHMM` offset carried by the datetime (hours `o / 60`, minutes `o % 60`) when
it carries a nonnegative offset of `o` minutes. -/
theorem C4_format_datetime_offset (dt : Datetime) :
    (dt.tzOffsetMinutes = none →
      format_datetime dt = strftimeMain dt ++ "+0000")
    ∧ (∀ o : Nat, dt.tzOffsetMinutes = some (o : Int) →
      format_datetime dt
        = strftimeMain dt ++ ("+" ++ pad2 (o / 60) ++ pad2 (o % 60))) := by
  constructor
  · intro h
    have hz : strftimeZ dt = "" := by simp [strftimeZ, h]
    unfold format_datetime
    rw [hz, if_pos rfl]
  · intro o h
    have h1 : ¬((o : Int) < 0) := Int.not_lt.mpr (Int.natCast_nonneg o)
    have h2 : strftimeZ dt = "+" ++ pad2 (o / 60) ++ pad2 (o % 60) := by
      simp [strftimeZ, h, h1]
    have h3 : ("+" ++ pad2 (o / 60) ++ pad2 (o % 60)) ≠ "" := by
      intro hemp
      have hl := congrArg String.length hemp
      simp [String.length_append] at hl
      exact absurd hl.1.1 (by decide)
    unfold format_datetime
    rw [h2, if_neg h3]

/-- Claim C4 witness: a concrete naive timestamp formats with `+0000`, and
a concrete timestamp carrying a 330-minute offset formats with `+0530`. -/
theorem C4_format_datetime_offset_witness :
    format_datetime ⟨2023, 5, 6, 7, 8, 9, none, 0⟩ = "2023-05-06T07:08:09+0000"
    ∧ format_datetime ⟨2023, 5, 6, 7, 8, 9, some 330, 0⟩
        = "2023-05-06T07:08:09+0530" := by
  constructor
  · rw [(C4_format_datetime_offset ⟨2023, 5, 6, 7, 8, 9, none, 0⟩).1 rfl]
    rfl
  · rw [(C4_format_datetime_offset ⟨2023, 5, 6, 7, 8, 9, some 330, 0⟩).2 330 rfl]
    rfl

/-- Claim C5: for both order queries invoked with no explicit time bounds,
`fromEnteredTime` is the ISO rendering of the minimum representable
timestamp (`datetime.min`) and `toEnteredTime` is the ISO rendering of the
`utcnow()` value read by that very call — the clock value is an argument
of each call of the embedded function, so it is re-read per call, never
cached. -/
theorem C5_default_time_bounds (c : Client) (acct : String) (mr : Option Int)
    (st : Option String) (sts : Option (List String)) (now : Datetime)
    (h : st = none ∨ sts = none) :
    (∃ r, get_orders_by_path c acct mr none none st sts now = Except.ok r
      ∧ lookupKey r.params "fromEnteredTime"
          = some (PyVal.vstr (format_datetime datetime_min))
      ∧ lookupKey r.params "toEnteredTime"
          = some (PyVal.vstr (format_datetime now)))
    ∧ (∃ r, get_orders_by_query c mr none none st sts now = Except.ok r
      ∧ lookupKey r.params "fromEnteredTime"
          = some (PyVal.vstr (format_datetime datetime_min))
      ∧ lookupKey r.params "toEnteredTime"
          = some (PyVal.vstr (format_datetime now))) := by
  obtain ⟨rest, hm⟩ := make_order_query_ok_shape mr none none st sts now h
  exact ⟨⟨_, (get_orders_by_path_eq c acct mr none none st sts now _ hm).trans
              rfl, rfl, rfl⟩,
         ⟨_, (get_orders_by_query_eq c mr none none st sts now _ hm).trans
              rfl, rfl, rfl⟩⟩

/-- Claim C5 witness: a concrete bound-less order query whose lower bound
is the formatted minimum timestamp and whose upper bound is the formatted
clock value passed to that call. -/
theorem C5_default_time_bounds_witness :
    ∃ r, get_orders_by_path ⟨"KEY", none⟩ "ACCT" none none none none none
        ⟨2023, 1, 2, 3, 4, 5, none, 0⟩ = Except.ok r
      ∧ lookupKey r.params "fromEnteredTime"
          = some (PyVal.vstr (format_datetime datetime_min))
      ∧ lookupKey r.params "toEnteredTime"
          = some (PyVal.vstr (format_datetime ⟨2023, 1, 2, 3, 4, 5, none, 0⟩)) :=
  (C5_default_time_bounds ⟨"KEY", none⟩ "ACCT" none none none
    ⟨2023, 1, 2, 3, 4, 5, none, 0⟩ (Or.inl rfl)).1

/-- Claim C8: the epoch-milliseconds form (`timestamp()` seconds times
1000, truncated to an integer) is used exactly for the price-history
`startDate` and `endDate` parameters; every other timestamp-valued
parameter of every operation (order-query bounds, market-hours dates,
option-chain from/to dates) is rendered with the ISO string form
`__format_datetime`. Each conjunct exhibits the complete
query mapping of one operation. -/
theorem C8_timestamp_forms (c : Client) (sym pt mkt : String) (freq : Int)
    (sd ed date f t now : Datetime) (markets : List String) (d2e : Int)
    (iq ext : Bool) :
    get_price_history c sym pt none none freq (some sd) (some ed) ext
      = Except.ok ⟨HttpMethod.get,
          baseUrl ++ ("/v1/marketdata/" ++ sym ++ "/pricehistory"),
          [("apikey", PyVal.vstr c.api_key),
           ("symbol", PyVal.vstr sym),
           ("periodType", PyVal.vstr pt),
           ("frequency", PyVal.vint freq),
           ("needExtendedHoursData", PyVal.vbool ext),
           ("startDate", PyVal.vint (datetime_as_millis sd)),
           ("endDate", PyVal.vint (datetime_as_millis ed))], none⟩
    ∧ datetime_as_millis ⟨2023, 1, 2, 3, 4, 5, none, 1672628645123456⟩
        = 1672628645123
    ∧ make_order_query none (some f) (some t) none none now
      = Except.ok
          [("fromEnteredTime", PyVal.vstr (format_datetime f)),
           ("toEnteredTime", PyVal.vstr (format_datetime t))]
    ∧ get_hours_for_a_single_market c mkt date
      = Except.ok ⟨HttpMethod.get,
          baseUrl ++ ("/v1/marketdata/" ++ mkt ++ "/hours"),
          [("apikey", PyVal.vstr c.api_key),
           ("date", PyVal.vstr (format_datetime date))], none⟩
    ∧ get_hours_for_multiple_markets c markets date
      = Except.ok ⟨HttpMethod.get, baseUrl ++ "/v1/marketdata/hours",
          [("apikey", PyVal.vstr c.api_key),
           ("markets", PyVal.vstr (joinComma markets)),
           ("date", PyVal.vstr (format_datetime date))], none⟩
    ∧ get_option_chain c sym "ALL" none iq none none none "ALL" (some f)
        (some t) none none none (some d2e) "ALL" "ALL"
      = Except.ok ⟨HttpMethod.get, baseUrl ++ "/v1/marketdata/chains",
          [("apikey", PyVal.vstr c.api_key),
           ("symbol", PyVal.vstr sym),
           ("includeQuotes", PyVal.vbool iq),
           ("contractType", PyVal.vstr "ALL"),
           ("range", PyVal.vstr "ALL"),
           ("expMonth", PyVal.vstr "ALL"),
           ("optionType", PyVal.vstr "ALL"),
           ("fromDate", PyVal.vstr (format_datetime f)),
           ("toDate", PyVal.vstr (format_datetime t))], none⟩ :=
  ⟨rfl, rfl, rfl, rfl, rfl, rfl⟩

/-- Claim C10: every market-data and instrument operation carries the
query key `apikey` bound to exactly the api key the client was constructed
with, while no order, saved-order, or account operation carries an
`apikey` key. The embedded operations are pure functions of an immutable
`Client` record, mirroring the source, which never assigns `api_key`
outside `__init__`. -/
theorem C10_apikey_policy (c : Client)
    (sym proj mkt idx dir chg cusip acct oid pt ct rng em ot ftv : String)
    (syms markets : List String) (date now f t : Datetime) (ospec : JsonData)
    (x : String) (xs : List String) (iq ext : Bool)
    (k1 k2 k3 k4 k5 k6 d2e np freq : Int) :
    lookupKey (paramsOf (search_instruments c sym proj)) "apikey"
      = some (PyVal.vstr c.api_key)
    ∧ lookupKey (paramsOf (get_instrument c (CusipArg.str cusip))) "apikey"
      = some (PyVal.vstr c.api_key)
    ∧ lookupKey (paramsOf (get_hours_for_multiple_markets c markets date))
        "apikey" = some (PyVal.vstr c.api_key)
    ∧ lookupKey (paramsOf (get_hours_for_a_single_market c mkt date))
        "apikey" = some (PyVal.vstr c.api_key)
    ∧ lookupKey (paramsOf (get_movers c idx dir chg)) "apikey"
      = some (PyVal.vstr c.api_key)
    ∧ lookupKey (paramsOf (get_option_chain c sym ct (some k1) iq (some "S")
        (some k2) (some k3) rng (some f) (some t) (some k4) (some k5)
        (some k6) (some d2e) em ot)) "apikey" = some (PyVal.vstr c.api_key)
    ∧ lookupKey (paramsOf (get_price_history c sym pt (some np) (some ftv)
        freq (some f) (some t) ext)) "apikey" = some (PyVal.vstr c.api_key)
    ∧ lookupKey (paramsOf (get_quote c sym)) "apikey"
      = some (PyVal.vstr c.api_key)
    ∧ lookupKey (paramsOf (get_quotes c syms)) "apikey"
      = some (PyVal.vstr c.api_key)
    ∧ containsKey (paramsOf (get_orders_by_path c acct none none none none
        none now)) "apikey" = false
    ∧ containsKey (paramsOf (get_orders_by_query c none none none none none
        now)) "apikey" = false
    ∧ containsKey (paramsOf (get_saved_order c acct oid)) "apikey" = false
    ∧ containsKey (paramsOf (get_saved_orders_by_path c acct)) "apikey" = false
    ∧ containsKey (paramsOf (get_account c acct (some (x :: xs)))) "apikey"
      = false
    ∧ containsKey (paramsOf (get_account c acct none)) "apikey" = false
    ∧ containsKey (paramsOf (get_accounts c (some (x :: xs)))) "apikey" = false
    ∧ containsKey (paramsOf (get_accounts c none)) "apikey" = false
    ∧ containsKey (paramsOf (place_order c acct ospec)) "apikey" = false
    ∧ containsKey (paramsOf (replace_order c acct oid ospec)) "apikey" = false
    ∧ containsKey (paramsOf (create_saved_order c acct ospec)) "apikey" = false
    ∧ containsKey (paramsOf (delete_saved_order c acct oid)) "apikey" = false
    ∧ containsKey (paramsOf (replace_saved_order c acct oid ospec)) "apikey"
      = false
    ∧ containsKey (paramsOf (cancel_order c oid acct)) "apikey" = false :=
  ⟨rfl, rfl, rfl, rfl, rfl, rfl, rfl, rfl, rfl, rfl, rfl, rfl, rfl, rfl, rfl,
   rfl, rfl, rfl, rfl, rfl, rfl, rfl, rfl⟩

end TDA
